import Mathlib

/-!
Shallow embedding of the selector-driven extraction engine
(`parse_product_page` in `src/parser.py`) and proofs of the spec's
claims about it.

The document tree and its two query capabilities (CSS selection and
XPath evaluation) are external library behaviour; they are modelled
abstractly as functions from a selector string to either a raised
exception (`Except.error`) or an ordered list of raw matches, where a
raw match is either an already-extracted attribute string or a
document node supporting text-content retrieval.
-/

namespace PriceStockParser

/-- Python's `str.lower()` as used at line 36 of `parser.py`, modelled
character-wise over the ASCII case mapping. -/
def pyLower (s : String) : String := ⟨s.data.map Char.toLower⟩

/-- Python's `str.strip()` (no argument) as used at lines 61 and 63 of
`parser.py`: remove leading and trailing whitespace characters. -/
def pyStrip (s : String) : String :=
  ⟨((s.data.dropWhile Char.isWhitespace).reverse.dropWhile Char.isWhitespace).reverse⟩

/-- One raw match returned by the query engine: either a plain string
(an already-extracted attribute value, `isinstance(el, str)` in the
source) or a document node supporting `text_content()` retrieval. -/
inductive RawMatch where
  | str (s : String)
  | node (textContent : String)
deriving DecidableEq, Repr

/-- The parsed document tree (`tree` at line 31 of `parser.py`),
abstracted to its two query capabilities.  Each query either raises
(`Except.error`, the case caught by the broad `except` at line 52) or
returns the ordered list of raw matches. -/
structure DocumentTree where
  cssselect : String → Except Unit (List RawMatch)
  xpath : String → Except Unit (List RawMatch)

/-- One entry of `config["data_points"]`: the three keys read at lines
35-37 of `parser.py`, each optional exactly as `dict.get` makes them. -/
structure SelectorConfig where
  selector : Option String := none
  type : Option String := none
  multi : Option Bool := none
deriving DecidableEq, Repr

/-- An extracted value: `None`, a single string, or a list of strings. -/
inductive Value where
  | null
  | str (s : String)
  | list (xs : List String)
deriving DecidableEq, Repr

/-- `[] if multi else None` (lines 40, 50 and 55 of `parser.py`). -/
def emptyForm (multi : Bool) : Value :=
  if multi then Value.list [] else Value.null

/-- Normalization of one raw match (lines 60-65 of `parser.py`): a
string match contributes its stripped value unconditionally; a node
match contributes its stripped text content only when non-empty. -/
def normalizeMatch : RawMatch → Option String
  | RawMatch.str s => some (pyStrip s)
  | RawMatch.node tc =>
      let text := pyStrip tc
      if text ≠ "" then some text else none

/-- The `processed_data` loop of lines 58-65: normalize each raw match
in order, keeping the contributions. -/
def normalizeMatches (extracted_elements : List RawMatch) : List String :=
  extracted_elements.filterMap normalizeMatch

/-- Lines 67-70: `multi` returns the whole processed list, otherwise
the first processed element or `None`. -/
def resolveCardinality (multi : Bool) (processed_data : List String) : Value :=
  if multi then Value.list processed_data
  else
    match processed_data.head? with
    | some v => Value.str v
    | none => Value.null

/-- The body of the `for data_key, selector_config in ...` loop (lines
35-70 of `parser.py`) for a single field: read the three config keys
with their defaults, short-circuit on a falsy selector, dispatch on the
lowercased selector type (`none` of the inner match = unsupported
language, line 49; `Except.error` = exception caught at line 52), then
normalize and resolve cardinality. -/
def evalField (tree : DocumentTree) (selector_config : SelectorConfig) : Value :=
  let selector_type := pyLower (selector_config.type.getD "css")
  let multi := selector_config.multi.getD false
  match selector_config.selector with
  | none => emptyForm multi
  | some sel =>
      if sel = "" then emptyForm multi
      else
        match (if selector_type = "css" then some (tree.cssselect sel)
               else if selector_type = "xpath" then some (tree.xpath sel)
               else none) with
        | none => emptyForm multi
        | some (Except.error _) => emptyForm multi
        | some (Except.ok extracted_elements) =>
            resolveCardinality multi (normalizeMatches extracted_elements)

/-- The whole loop of lines 32-72: build the result mapping by
evaluating each configured field independently against the tree.  The
result dictionary is represented as the association list produced in
iteration order. -/
def extract (tree : DocumentTree) (data_points : List (String × SelectorConfig)) :
    List (String × Value) :=
  data_points.map fun kv => (kv.1, evalField tree kv.2)

/-- `parse_product_page` (lines 5-72): parse the HTML into a tree via
the external `html.fromstring` — which sits OUTSIDE any try/except, so
a parse failure propagates — then run the extraction loop.  The
external parser is passed in as `fromstring` since its behaviour is
library code, not repository code. -/
def parse_product_page (fromstring : String → Except Unit DocumentTree)
    (html_content : String) (data_points : List (String × SelectorConfig)) :
    Except Unit (List (String × Value)) :=
  match fromstring html_content with
  | Except.error e => Except.error e
  | Except.ok tree => Except.ok (extract tree data_points)

/-- Whether a raw match survives normalization: strings always, nodes
only when their stripped text content is non-empty. -/
def survives : RawMatch → Bool
  | RawMatch.str _ => true
  | RawMatch.node tc => pyStrip tc ≠ ""

/-- The normalized text of a raw match. -/
def matchText : RawMatch → String
  | RawMatch.str s => pyStrip s
  | RawMatch.node tc => pyStrip tc

/-- Two trees agree on a field's configured selector: every query the
evaluation of that field could issue returns the same matches. -/
def agreesOn (t1 t2 : DocumentTree) (cfg : SelectorConfig) : Prop :=
  ∀ sel, cfg.selector = some sel →
    t1.cssselect sel = t2.cssselect sel ∧ t1.xpath sel = t2.xpath sel

/-- A concrete tree used to instantiate witnesses. -/
def demoTree : DocumentTree where
  cssselect := fun sel =>
    if sel = "h1.title" then Except.ok [RawMatch.node " Widget "]
    else if sel = "li.tag" then
      Except.ok [RawMatch.node "A", RawMatch.node " ", RawMatch.str " B ", RawMatch.node "A"]
    else if sel = "bad[" then Except.error ()
    else Except.ok []
  xpath := fun sel =>
    if sel = "//img/@src" then Except.ok [RawMatch.str "  /a.png "]
    else if sel = "//bad[" then Except.error ()
    else Except.ok []

/-- C3: the result mapping has exactly the configured keys, in order,
each exactly once. -/
theorem extract_keys_total (tree : DocumentTree)
    (data_points : List (String × SelectorConfig)) :
    (extract tree data_points).map Prod.fst = data_points.map Prod.fst := by
  simp [extract]

/-- C8: normalization is an order-preserving, duplicate-preserving
filter: the output is exactly the trimmed text of the sublist of raw
matches that survive the empty-node-text rule, and that sublist is a
sublist (hence in original order) of the raw match sequence. -/
theorem normalize_order_preserving (els : List RawMatch) :
    normalizeMatches els = (els.filter survives).map matchText ∧
      (els.filter survives).Sublist els := by
  constructor
  · induction els with
    | nil => rfl
    | cons e rest ih =>
        cases e with
        | str s =>
            simp [normalizeMatches, normalizeMatch, survives, matchText,
              List.filterMap_cons, List.filter_cons] at ih ⊢
            exact ih
        | node tc =>
            by_cases h : pyStrip tc = ""
            · simp [normalizeMatches, normalizeMatch, survives, matchText,
                List.filterMap_cons, List.filter_cons, h] at ih ⊢
              exact ih
            · simp [normalizeMatches, normalizeMatch, survives, matchText,
                List.filterMap_cons, List.filter_cons, h] at ih ⊢
              exact ih
  · exact List.filter_sublist els

/-- C5: normalization asymmetry — a plain-string match always
contributes its stripped value (even when that is empty), while a node
match contributes its stripped text content exactly when that is
non-empty and contributes nothing when it strips to empty. -/
theorem normalize_asymmetry :
    (∀ (s : String) (rest : List RawMatch),
        normalizeMatches (RawMatch.str s :: rest) = pyStrip s :: normalizeMatches rest) ∧
    (∀ (tc : String) (rest : List RawMatch), pyStrip tc ≠ "" →
        normalizeMatches (RawMatch.node tc :: rest) = pyStrip tc :: normalizeMatches rest) ∧
    (∀ (tc : String) (rest : List RawMatch), pyStrip tc = "" →
        normalizeMatches (RawMatch.node tc :: rest) = normalizeMatches rest) := by
  refine ⟨fun s rest => ?_, fun tc rest h => ?_, fun tc rest h => ?_⟩ <;>
    simp [normalizeMatches, normalizeMatch, List.filterMap_cons, *]

/-- Witness for C5 at concrete inputs: the stripped attribute string is
kept even when empty, the blank node is dropped, the non-blank node is
kept stripped. -/
theorem normalize_asymmetry_witness :
    normalizeMatches [RawMatch.str "  ", RawMatch.node "  ", RawMatch.node " B "] =
      ["", "B"] := by
  rw [normalize_asymmetry.1 "  " [RawMatch.node "  ", RawMatch.node " B "],
    normalize_asymmetry.2.2 "  " [RawMatch.node " B "] (by decide),
    normalize_asymmetry.2.1 " B " [] (by decide)]
  decide

/-- C6: a rule whose selector is absent or the empty string yields the
cardinality-appropriate empty form on every document, with no selector
evaluation performed (the result does not depend on the tree at all). -/
theorem evalField_empty_selector (cfg : SelectorConfig)
    (h : cfg.selector = none ∨ cfg.selector = some "") (tree : DocumentTree) :
    evalField tree cfg =
      (if cfg.multi.getD false then Value.list [] else Value.null) := by
  rcases h with h | h <;> simp [evalField, h, emptyForm]

/-- Witness for C6: an empty-string selector with `multi=true` yields
`[]` on the demo tree. -/
theorem evalField_empty_selector_witness :
    evalField demoTree { selector := some "", type := none, multi := some true } =
      Value.list [] :=
  (evalField_empty_selector
    { selector := some "", type := none, multi := some true } (Or.inr rfl) demoTree).trans
    (by decide)

/-- C7: a rule whose lowercased selector language is neither `css` nor
`xpath` behaves, on every document, exactly as the same rule with an
empty selector: the cardinality-appropriate empty form, with no
evaluation performed. -/
theorem evalField_unsupported_language (cfg : SelectorConfig)
    (h1 : pyLower (cfg.type.getD "css") ≠ "css")
    (h2 : pyLower (cfg.type.getD "css") ≠ "xpath") (tree : DocumentTree) :
    evalField tree cfg =
        evalField tree { selector := some "", type := cfg.type, multi := cfg.multi } ∧
    evalField tree cfg =
        (if cfg.multi.getD false then Value.list [] else Value.null) := by
  have hempty : evalField tree cfg =
      (if cfg.multi.getD false then Value.list [] else Value.null) := by
    cases hs : cfg.selector with
    | none => simp [evalField, hs, emptyForm]
    | some sel =>
        by_cases he : sel = "" <;> simp [evalField, hs, he, h1, h2, emptyForm]
  exact ⟨hempty.trans (by simp [evalField, emptyForm]), hempty⟩

/-- Witness for C7: selector language `json` falls into the
empty-selector policy on the demo tree. -/
theorem evalField_unsupported_language_witness :
    evalField demoTree { selector := some "h1.title", type := some "json", multi := some false } =
        evalField demoTree { selector := some "", type := some "json", multi := some false } ∧
    evalField demoTree { selector := some "h1.title", type := some "json", multi := some false } =
        Value.null :=
  have h := evalField_unsupported_language
    { selector := some "h1.title", type := some "json", multi := some false }
    (by decide) (by decide) demoTree
  ⟨h.1, h.2.trans (by decide)⟩

/-- C4: cardinality resolution — when a field's selector evaluates
successfully to raw matches `els`, a `multi=true` rule returns the
whole normalized sequence as a list (possibly empty), and a
`multi=false` rule returns the first normalized element as a string,
or `null` when the normalized sequence is empty, ignoring everything
after the first element. -/
theorem evalField_cardinality (tree : DocumentTree) (cfg : SelectorConfig)
    (sel : String) (els : List RawMatch)
    (hsel : cfg.selector = some sel) (hne : sel ≠ "")
    (hok : (pyLower (cfg.type.getD "css") = "css" ∧ tree.cssselect sel = Except.ok els) ∨
           (pyLower (cfg.type.getD "css") = "xpath" ∧ tree.xpath sel = Except.ok els)) :
    evalField tree cfg =
      (if cfg.multi.getD false then Value.list (normalizeMatches els)
       else
         match (normalizeMatches els).head? with
         | some v => Value.str v
         | none => Value.null) := by
  rcases hok with ⟨ht, hq⟩ | ⟨ht, hq⟩ <;>
    simp [evalField, hsel, hne, ht, hq, resolveCardinality]

/-- Witness for C4: a `multi=true` CSS rule on the demo tree returns
the full normalized list, duplicates and order preserved. -/
theorem evalField_cardinality_witness :
    evalField demoTree { selector := some "li.tag", type := none, multi := some true } =
      Value.list ["A", "B", "A"] :=
  (evalField_cardinality demoTree
      { selector := some "li.tag", type := none, multi := some true }
      "li.tag"
      [RawMatch.node "A", RawMatch.node " ", RawMatch.str " B ", RawMatch.node "A"]
      rfl (by decide) (Or.inl ⟨by decide, rfl⟩)).trans
    (by decide)

/-- C1: per-field fault isolation — when one field's selector
evaluation raises (the `Except.error` case caught by the broad
`except`), that field gets its empty form and every field before and
after it is extracted exactly as it would have been with the faulty
field absent; the fault never escapes `extract`. -/
theorem extract_fault_isolation (tree : DocumentTree)
    (pre post : List (String × SelectorConfig)) (data_key : String)
    (cfg : SelectorConfig) (sel : String)
    (hsel : cfg.selector = some sel) (hne : sel ≠ "")
    (hfault :
      (pyLower (cfg.type.getD "css") = "css" ∧ tree.cssselect sel = Except.error ()) ∨
      (pyLower (cfg.type.getD "css") = "xpath" ∧ tree.xpath sel = Except.error ())) :
    extract tree (pre ++ (data_key, cfg) :: post) =
        extract tree pre ++
          (data_key, if cfg.multi.getD false then Value.list [] else Value.null) ::
            extract tree post ∧
    extract tree (pre ++ post) = extract tree pre ++ extract tree post := by
  have hfield : evalField tree cfg =
      (if cfg.multi.getD false then Value.list [] else Value.null) := by
    rcases hfault with ⟨ht, hq⟩ | ⟨ht, hq⟩ <;>
      simp [evalField, hsel, hne, ht, hq, emptyForm]
  exact ⟨by simp [extract, hfield], by simp [extract]⟩

/-- Witness for C1: on the demo tree the invalid CSS selector `bad[`
raises, its field degrades to `[]`, and the valid fields on either side
are still extracted. -/
theorem extract_fault_isolation_witness :
    extract demoTree
        [("title", { selector := some "h1.title", type := none, multi := some false }),
         ("tags", { selector := some "bad[", type := some "css", multi := some true }),
         ("img", { selector := some "//img/@src", type := some "xpath", multi := some false })] =
      [("title", Value.str "Widget"), ("tags", Value.list []),
       ("img", Value.str "/a.png")] := by
  have h := extract_fault_isolation demoTree
    [("title", { selector := some "h1.title", type := none, multi := some false })]
    [("img", { selector := some "//img/@src", type := some "xpath", multi := some false })]
    "tags" { selector := some "bad[", type := some "css", multi := some true }
    "bad[" rfl (by decide) (Or.inl ⟨by decide, rfl⟩)
  exact h.1.trans (by decide)

/-- A field's result depends only on the query answers for its own
configured selector: trees that agree there evaluate the field
identically. -/
theorem evalField_congr (t1 t2 : DocumentTree) (cfg : SelectorConfig)
    (h : agreesOn t1 t2 cfg) : evalField t1 cfg = evalField t2 cfg := by
  cases hs : cfg.selector with
  | none => simp [evalField, hs]
  | some sel =>
      obtain ⟨hc, hx⟩ := h sel hs
      by_cases he : sel = "" <;> simp [evalField, hs, he, hc, hx]

/-- C9: determinism and statelessness — the extraction result is a
function of the rule set and of the document's query behaviour on the
configured selectors alone.  Two invocations over distinct,
freshly-built trees that answer the configured queries identically
(in particular, two runs on the same document text) return identical
results; nothing else — no cross-call state — can influence the
output. -/
theorem extract_deterministic (t1 t2 : DocumentTree)
    (data_points : List (String × SelectorConfig))
    (h : ∀ kv ∈ data_points, agreesOn t1 t2 kv.2) :
    extract t1 data_points = extract t2 data_points := by
  unfold extract
  exact List.map_congr_left fun kv hkv =>
    congrArg (Prod.mk kv.1) (evalField_congr t1 t2 kv.2 (h kv hkv))

/-- A second concrete tree: it answers the `h1.title` queries exactly
as `demoTree` does but differs everywhere else. -/
def demoTreeAlt : DocumentTree where
  cssselect := fun sel =>
    if sel = "h1.title" then Except.ok [RawMatch.node " Widget "] else Except.error ()
  xpath := fun sel =>
    if sel = "h1.title" then Except.ok [] else Except.ok [RawMatch.str "x"]

/-- Witness for C9: the two demo trees agree on the only configured
selector, so extraction returns the same mapping from both. -/
theorem extract_deterministic_witness :
    extract demoTree
        [("title", { selector := some "h1.title", type := none, multi := some false })] =
      extract demoTreeAlt
        [("title", { selector := some "h1.title", type := none, multi := some false })] :=
  extract_deterministic demoTree demoTreeAlt
    [("title", { selector := some "h1.title", type := none, multi := some false })]
    (by
      intro kv hkv
      simp only [List.mem_singleton] at hkv
      subst hkv
      intro sel hsel
      simp only [Option.some.injEq] at hsel
      subst hsel
      exact ⟨rfl, rfl⟩)

/-- C10: the selector-language dispatch is case-insensitive — the
configured type string is lowercased (line 36 of `parser.py`) before
the comparison, so any casing whose lowercase form is `css` or `xpath`
dispatches exactly as the lowercase form does. -/
theorem evalField_case_insensitive (typ : String)
    (h : pyLower typ = "css" ∨ pyLower typ = "xpath") (tree : DocumentTree)
    (sel : String) (multi : Option Bool) :
    evalField tree { selector := some sel, type := some typ, multi := multi } =
      evalField tree { selector := some sel, type := some (pyLower typ), multi := multi } := by
  have hcss : pyLower "css" = "css" := rfl
  have hxp : pyLower "xpath" = "xpath" := rfl
  rcases h with h | h <;>
    · by_cases he : sel = "" <;> simp [evalField, h, he, hcss, hxp]

/-- Witness for C10: type `XPATH` dispatches to the XPath branch just
as `xpath` does, extracting the attribute string on the demo tree. -/
theorem evalField_case_insensitive_witness :
    evalField demoTree
        { selector := some "//img/@src", type := some "XPATH", multi := some false } =
      evalField demoTree
        { selector := some "//img/@src", type := some "xpath", multi := some false } ∧
    evalField demoTree
        { selector := some "//img/@src", type := some "XPATH", multi := some false } =
      Value.str "/a.png" :=
  have h := evalField_case_insensitive "XPATH" (Or.inr (by decide)) demoTree
    "//img/@src" (some false)
  ⟨h.trans (by decide), h.trans (by decide)⟩

/-- C2 (refuted as stated): the document parse at line 31 of
`parser.py` sits outside every try/except, so when the external
`html.fromstring` raises — as lxml's does on an empty or otherwise
unparsable input ("Document is empty") — `parse_product_page`
propagates the exception instead of returning an empty-form result
mapping. -/
theorem parse_product_page_raises_on_unparsable
    (fromstring : String → Except Unit DocumentTree)
    (data_points : List (String × SelectorConfig))
    (h : fromstring "" = Except.error ()) :
    parse_product_page fromstring "" data_points = Except.error () := by
  simp [parse_product_page, h]

/-- The external `lxml.html.fromstring`, modelled on empty input (where
it raises `ParserError: Document is empty`) and otherwise returning the
demo tree. -/
def fromstringDemo (html_content : String) : Except Unit DocumentTree :=
  if html_content = "" then Except.error () else Except.ok demoTree

/-- Witness for the C2 refutation: with the modelled parser, the empty
input makes the whole call raise even though a field is configured. -/
theorem parse_product_page_raises_witness :
    parse_product_page fromstringDemo ""
        [("title", { selector := some "h1.title", type := none, multi := some false })] =
      Except.error () :=
  parse_product_page_raises_on_unparsable fromstringDemo
    [("title", { selector := some "h1.title", type := none, multi := some false })] rfl

end PriceStockParser
